import Mathlib

/-!
Shallow embedding of the HTTP service in src/app.py.

Modelling conventions:
  - Python strings are `List Char`; `str.lower` is modelled for the ASCII
    range (all stoplist tokens and error patterns in the program are ASCII).
  - Instants from `datetime.now()` are integers counting microseconds, the
    exact resolution of Python `datetime`; `timedelta(minutes=1)` is
    60000000 microseconds.  The float expression
    `int(60 - delta.total_seconds())` equals truncation toward zero of the
    exact rational `(60000000 - delta_us) / 1000000`, which is
    `Int.tdiv (60000000 - delta_us) 1000000`; float rounding error is not
    modelled.
  - Outbound HTTP calls are parameters: the generative model is an
    `Upstream` value (returned text, or the message of a raised exception)
    and the two GIF providers are `ProviderResp` values describing what
    each call would yield.
  - `removeAll pat l` is Python `l.replace(pat, "")`: a single
    left-to-right scan that removes every non-overlapping occurrence.  It
    recurses on an explicit fuel equal to the list length so that it is
    structurally recursive and evaluates inside `decide`.
-/

/-- Python str.isspace characters relevant to str.strip (ASCII range). -/
def pyIsSpace (c : Char) : Bool :=
  c = ' ' || c = '\t' || c = '\n' || c = '\r' || c = '\x0b' || c = '\x0c'

/-- Python str.lower on one character, ASCII range. -/
def pyToLower (c : Char) : Char :=
  if 65 ≤ c.toNat ∧ c.toNat ≤ 90 then Char.ofNat (c.toNat + 32) else c

/-- Python str.lower, ASCII range. -/
def pyLower (l : List Char) : List Char :=
  l.map pyToLower

/-- Python str.strip with no argument: drop leading and trailing whitespace. -/
def pyStrip (l : List Char) : List Char :=
  ((l.dropWhile pyIsSpace).reverse.dropWhile pyIsSpace).reverse

/-- Python substring test, the `in` operator on strings. -/
def containsTok (pat : List Char) : List Char → Bool
  | [] => pat.isEmpty
  | c :: rest => pat.isPrefixOf (c :: rest) || containsTok pat rest

/-- Fuel-driven body of `removeAll`; fuel bounds the recursion depth. -/
def removeAllFuel (pat : List Char) : Nat → List Char → List Char
  | 0, l => l
  | _ + 1, [] => []
  | n + 1, c :: rest =>
    if pat ≠ [] ∧ pat.isPrefixOf (c :: rest) then
      removeAllFuel pat n (List.drop (pat.length - 1) rest)
    else
      c :: removeAllFuel pat n rest

/-- Python l.replace(pat, empty string): remove every occurrence of pat. -/
def removeAll (pat l : List Char) : List Char :=
  removeAllFuel pat l.length l

/-- Marker searched by the regex in src/app.py line 293. -/
def retryMarker : List Char := "retry in ".toList

/-- Decimal value of a digit run. -/
def digitsToNat (ds : List Char) : Nat :=
  ds.foldl (fun n d => n * 10 + (d.toNat - 48)) 0

/-- Python re.search of raw pattern retry in (\d+): the leftmost position
where the marker is followed by at least one digit; the captured group is
the maximal digit run there. -/
def parseRetry : List Char → Option Nat
  | [] => none
  | c :: rest =>
    if retryMarker.isPrefixOf (c :: rest) then
      let ds := (List.drop retryMarker.length (c :: rest)).takeWhile Char.isDigit
      if ds.isEmpty then parseRetry rest else some (digitsToNat ds)
    else parseRetry rest

/-- Constant from src/app.py line 26. -/
def MAX_REQUESTS_PER_MINUTE : Nat := 2

/-- Sixty seconds expressed in microseconds, timedelta(minutes=1). -/
def oneMinuteUs : ℤ := 60000000

/-- Pruning step of check_rate_limit, src/app.py line 32: keep the
timestamps strictly younger than one minute. -/
def pruneTimes (now : ℤ) (times : List ℤ) : List ℤ :=
  times.filter (fun t => now - t < oneMinuteUs)

/-- Python min over a list of instants (src/app.py line 35); the list is
nonempty wherever the program calls it. -/
def listMin : List ℤ → ℤ
  | [] => 0
  | t :: rest => rest.foldl min t

/-- Python int() truncation of the float 60 - delta.total_seconds(),
computed exactly from the microsecond delta already subtracted from one
minute: truncation toward zero of us / 1000000. -/
def waitSecondsOfUs (us : ℤ) : ℤ :=
  Int.tdiv us 1000000

/-- check_rate_limit from src/app.py lines 28-40, acting on an explicit
timestamp log and instant.  Returns (allowed, wait_seconds, new log). -/
def check_rate_limit (now : ℤ) (times : List ℤ) : Bool × ℤ × List ℤ :=
  let pruned := pruneTimes now times
  if MAX_REQUESTS_PER_MINUTE ≤ pruned.length then
    (false, waitSecondsOfUs (oneMinuteUs - (now - listMin pruned)), pruned)
  else
    (true, 0, pruned ++ [now])

/-- Keyword derivation inlined in src/app.py lines 276-278: lowercase,
remove the four literal substrings create, generate, gif, video in that
order, strip, and truncate to 50 characters when longer. -/
def extractKeywords (prompt : List Char) : List Char :=
  let k := pyStrip (removeAll ("video".toList) (removeAll ("gif".toList)
    (removeAll ("generate".toList) (removeAll ("create".toList) (pyLower prompt)))))
  if 50 < k.length then k.take 50 else k

/-- Whitespace collapsing with explicit fuel, used only by the extraction
algorithm that the specification text describes. -/
def collapseWsFuel : Nat → List Char → List Char
  | 0, l => l
  | _ + 1, [] => []
  | n + 1, c :: rest =>
    if pyIsSpace c then ' ' :: collapseWsFuel n (rest.dropWhile pyIsSpace)
    else c :: collapseWsFuel n rest

/-- Collapse every whitespace run to a single space. -/
def collapseWs (l : List Char) : List Char :=
  collapseWsFuel l.length l

/-- Modelled from the spec: the nine-token stoplist the specification
claims for keyword extraction. -/
def specStoplist : List (List Char) :=
  ["create".toList, "generate".toList, "gif".toList, "video".toList,
   "make".toList, "show".toList, "design".toList, "a".toList, "the".toList]

/-- Modelled from the spec: the extraction algorithm of section 4.5 of the
specification: lowercase, remove each of the nine stoplist tokens as a
literal substring, collapse repeated whitespace, trim, truncate to 50. -/
def specExtract (prompt : List Char) : List Char :=
  List.take 50 (pyStrip (collapseWs
    (List.foldl (fun s tok => removeAll tok s) (pyLower prompt) specStoplist)))

/-- Amended description of the extraction actually implemented: lowercase,
remove create, generate, gif, video in that order, trim, truncate to 50. -/
def specExtractAmended (prompt : List Char) : List Char :=
  List.take 50 (pyStrip (List.foldl (fun s tok => removeAll tok s) (pyLower prompt)
    ["create".toList, "generate".toList, "gif".toList, "video".toList]))

/-- Normalized GIF entry returned by /search-gif. -/
structure GifItem where
  url : List Char
  title : List Char
  source : List Char
deriving DecidableEq

/-- One Giphy search result: its fixed_height image URL and optional title. -/
structure GiphyItem where
  fixedHeightUrl : List Char
  title : Option (List Char)
deriving DecidableEq

/-- One Tenor search result: its gif media URL and optional description. -/
structure TenorItem where
  gifUrl : List Char
  contentDescription : Option (List Char)
deriving DecidableEq

/-- Body and status of a provider HTTP response. -/
structure ProviderResp (α : Type) where
  statusCode : Nat
  data : List α
deriving DecidableEq

/-- Mapping of a Giphy item, src/app.py lines 159-163. -/
def giphyItemToGif (it : GiphyItem) : GifItem :=
  { url := it.fixedHeightUrl, title := it.title.getD ("GIF".toList),
    source := "Giphy".toList }

/-- Mapping of a Tenor item, src/app.py lines 180-184. -/
def tenorItemToGif (it : TenorItem) : GifItem :=
  { url := it.gifUrl, title := it.contentDescription.getD ("GIF".toList),
    source := "Tenor".toList }

/-- Result of the /search-gif endpoint. -/
inductive SearchOutcome where
  | success (query : List Char) (gifs : List GifItem)
  | failure (error : List Char)
deriving DecidableEq

/-- search_gif from src/app.py lines 144-202: Giphy when a key is
configured and its call returns 200, otherwise Tenor when its call returns
200, otherwise failure.  Both providers keep only the first 6 items. -/
def search_gif (giphyKey : List Char) (giphyResp : ProviderResp GiphyItem)
    (tenorResp : ProviderResp TenorItem) (query : List Char) : SearchOutcome :=
  if giphyKey ≠ [] ∧ giphyResp.statusCode = 200 then
    .success query ((giphyResp.data.take 6).map giphyItemToGif)
  else if tenorResp.statusCode = 200 then
    .success query ((tenorResp.data.take 6).map tenorItemToGif)
  else
    .failure ("Failed to fetch GIFs".toList)

/-- Behaviour of the generative model call inside /generate: either a
returned text or the message of a raised exception. -/
inductive Upstream where
  | ok (text : List Char)
  | raises (msg : List Char)
deriving DecidableEq

/-- Reply assembled by the exception handler of /generate. -/
structure ErrReply where
  statusCode : Nat
  status : List Char
  error : List Char
  waitSeconds : Option ℤ
deriving DecidableEq

/-- Quota test of src/app.py line 291: the message contains 429, or its
lowercase form contains quota. -/
def quotaPattern (msg : List Char) : Bool :=
  containsTok ("429".toList) msg || containsTok ("quota".toList) (pyLower msg)

/-- Wait value of src/app.py lines 293-294: the parsed retry delay when
present, otherwise 60. -/
def retryWait (msg : List Char) : ℤ :=
  match parseRetry msg with
  | some n => (n : ℤ)
  | none => 60

/-- Exception handler of /generate, src/app.py lines 289-310. -/
def classify_generate_error (msg : List Char) : ErrReply :=
  if quotaPattern msg then
    { statusCode := 429, status := "quota_exceeded".toList,
      error := "API quota exceeded. Free tier limit: 2 requests per minute.".toList,
      waitSeconds := some (retryWait msg) }
  else
    { statusCode := 500, status := "error".toList,
      error := "Failed to generate content: ".toList ++ msg,
      waitSeconds := none }

/-- Observable outcome of one /generate request, together with the
timestamp log it leaves behind and whether a model was invoked. -/
structure GenReply where
  statusCode : Nat
  status : List Char
  error : Option (List Char)
  waitSeconds : Option ℤ
  output : Option (List Char)
  relatedGifs : Option (List GifItem)
  requestsRemaining : Option ℤ
  modelInvoked : Bool
  newTimes : List ℤ
deriving DecidableEq

/-- State of the two GIF providers as seen from /generate. -/
structure GifEnv where
  giphyKey : List Char
  giphyResp : ProviderResp GiphyItem
  tenorResp : ProviderResp TenorItem
deriving DecidableEq

/-- The /generate endpoint, src/app.py lines 204-310, over an explicit
timestamp log, instant, query parameters and upstream behaviour.  The
branches follow the source in order: rate limit, empty prompt, model call,
optional GIF enrichment, exception classification. -/
def generate (times : List ℤ) (now : ℤ) (prompt : List Char)
    (includeMedia : Bool) (up : Upstream) (genv : GifEnv) : GenReply :=
  let res := check_rate_limit now times
  if res.1 = false then
    { statusCode := 429, status := "rate_limited".toList,
      error := some ("Rate limit exceeded. Free tier allows 2 requests per minute.".toList),
      waitSeconds := some res.2.1, output := none, relatedGifs := none,
      requestsRemaining := none, modelInvoked := false, newTimes := res.2.2 }
  else if (pyStrip prompt).isEmpty then
    { statusCode := 400, status := "error".toList,
      error := some ("Prompt cannot be empty".toList),
      waitSeconds := none, output := none, relatedGifs := none,
      requestsRemaining := none, modelInvoked := false, newTimes := res.2.2 }
  else
    match up with
    | .ok text =>
      if text.isEmpty then
        { statusCode := 500, status := "error".toList,
          error := some ("No response generated".toList),
          waitSeconds := none, output := none, relatedGifs := none,
          requestsRemaining := none, modelInvoked := true, newTimes := res.2.2 }
      else
        { statusCode := 200, status := "success".toList, error := none,
          waitSeconds := none, output := some text,
          relatedGifs :=
            if includeMedia then
              match search_gif genv.giphyKey genv.giphyResp genv.tenorResp
                  (extractKeywords prompt) with
              | .success _ gifs => some gifs
              | .failure _ => none
            else none,
          requestsRemaining := some ((MAX_REQUESTS_PER_MINUTE : ℤ) - res.2.2.length),
          modelInvoked := true, newTimes := res.2.2 }
    | .raises msg =>
      let r := classify_generate_error msg
      { statusCode := r.statusCode, status := r.status, error := some r.error,
        waitSeconds := r.waitSeconds, output := none, relatedGifs := none,
        requestsRemaining := none, modelInvoked := true, newTimes := res.2.2 }

/-- Provider environment with no Giphy key and a failing Tenor call, used
by concrete instantiations. -/
def trivialGifEnv : GifEnv :=
  { giphyKey := [], giphyResp := { statusCode := 500, data := [] },
    tenorResp := { statusCode := 500, data := [] } }

/-! Helper lemmas shared by the claim theorems. -/

theorem toNat_ofNat_valid (m : Nat) (hv : Nat.isValidChar m) :
    (Char.ofNat m).toNat = m := by
  rw [Char.ofNat, dif_pos hv]
  rfl

theorem pyToLower_idem (c : Char) : pyToLower (pyToLower c) = pyToLower c := by
  by_cases h : 65 ≤ c.toNat ∧ c.toNat ≤ 90
  · have hv : Nat.isValidChar (c.toNat + 32) := Or.inl (by omega)
    have h1 : (Char.ofNat (c.toNat + 32)).toNat = c.toNat + 32 :=
      toNat_ofNat_valid _ hv
    have hlow : pyToLower c = Char.ofNat (c.toNat + 32) := by
      rw [pyToLower, if_pos h]
    rw [hlow, pyToLower, h1, if_neg (by omega)]
  · have hlow : pyToLower c = c := by rw [pyToLower, if_neg h]
    rw [hlow, hlow]

theorem map_self {α : Type} (f : α → α) (l : List α) (h : ∀ a ∈ l, f a = a) :
    l.map f = l := by
  induction l with
  | nil => rfl
  | cons a rest ih =>
    rw [List.map_cons, h a (List.mem_cons_self a rest),
      ih (fun b hb => h b (List.mem_cons_of_mem a hb))]

theorem removeAllFuel_sublist (pat : List Char) (n : Nat) (l : List Char) :
    (removeAllFuel pat n l).Sublist l := by
  induction n generalizing l with
  | zero => exact List.Sublist.refl l
  | succ n ih =>
    cases l with
    | nil => exact List.Sublist.refl []
    | cons c rest =>
      rw [removeAllFuel]
      by_cases hc : pat ≠ [] ∧ pat.isPrefixOf (c :: rest)
      · rw [if_pos hc]
        exact ((ih _).trans (List.drop_sublist _ _)).trans (List.sublist_cons_self c rest)
      · rw [if_neg hc]
        exact List.Sublist.cons₂ c (ih rest)

theorem removeAll_sublist (pat l : List Char) : (removeAll pat l).Sublist l :=
  removeAllFuel_sublist pat l.length l

theorem removeAllFuel_of_not_contains (pat : List Char) (n : Nat) (l : List Char)
    (h : containsTok pat l = false) : removeAllFuel pat n l = l := by
  induction n generalizing l with
  | zero => rfl
  | succ n ih =>
    cases l with
    | nil => rfl
    | cons c rest =>
      rw [containsTok, Bool.or_eq_false_iff] at h
      rw [removeAllFuel, if_neg (fun hc => by simp [h.1] at hc), ih rest h.2]

theorem removeAll_of_not_contains (pat l : List Char)
    (h : containsTok pat l = false) : removeAll pat l = l :=
  removeAllFuel_of_not_contains pat l.length l h

theorem pyStrip_sublist (l : List Char) : (pyStrip l).Sublist l := by
  have h1 : (List.dropWhile pyIsSpace l).Sublist l := List.dropWhile_sublist _
  have h2 : (List.dropWhile pyIsSpace (List.dropWhile pyIsSpace l).reverse).Sublist
      (List.dropWhile pyIsSpace l).reverse := List.dropWhile_sublist _
  have h3 := List.reverse_sublist.mpr h2
  rw [List.reverse_reverse] at h3
  exact h3.trans h1

theorem extractKeywords_sublist_lower (x : List Char) :
    (extractKeywords x).Sublist (pyLower x) := by
  have hk : (pyStrip (removeAll ("video".toList) (removeAll ("gif".toList)
      (removeAll ("generate".toList) (removeAll ("create".toList)
        (pyLower x)))))).Sublist (pyLower x) :=
    (pyStrip_sublist _).trans ((removeAll_sublist _ _).trans
      ((removeAll_sublist _ _).trans ((removeAll_sublist _ _).trans
        (removeAll_sublist _ _))))
  simp only [extractKeywords]
  split
  · exact (List.take_sublist _ _).trans hk
  · exact hk

theorem pyLower_extractKeywords (x : List Char) :
    pyLower (extractKeywords x) = extractKeywords x := by
  simp only [pyLower]
  apply map_self
  intro c hc
  have hmem : c ∈ pyLower x := (extractKeywords_sublist_lower x).subset hc
  simp only [pyLower] at hmem
  obtain ⟨a, _, rfl⟩ := List.mem_map.mp hmem
  exact pyToLower_idem a

theorem extractKeywords_length_le (x : List Char) : (extractKeywords x).length ≤ 50 := by
  simp only [extractKeywords]
  split
  next h => rw [List.length_take]; exact min_le_left _ _
  next h => omega

theorem check_rate_limit_allow (now : ℤ) (times : List ℤ)
    (h : (pruneTimes now times).length < MAX_REQUESTS_PER_MINUTE) :
    check_rate_limit now times = (true, 0, pruneTimes now times ++ [now]) := by
  simp only [check_rate_limit]
  rw [if_neg (by omega)]

theorem check_rate_limit_reject (now : ℤ) (times : List ℤ)
    (h : MAX_REQUESTS_PER_MINUTE ≤ (pruneTimes now times).length) :
    check_rate_limit now times =
      (false, waitSecondsOfUs (oneMinuteUs - (now - listMin (pruneTimes now times))),
        pruneTimes now times) := by
  simp only [check_rate_limit]
  rw [if_pos h]

theorem generate_newTimes (times : List ℤ) (now : ℤ) (prompt : List Char)
    (im : Bool) (up : Upstream) (genv : GifEnv) :
    (generate times now prompt im up genv).newTimes = (check_rate_limit now times).2.2 := by
  simp only [generate]
  split
  · rfl
  · split
    · rfl
    · cases up with
      | ok text =>
        dsimp only
        split
        · rfl
        · rfl
      | raises msg => rfl

/-! Claim theorems. -/

/-- Claim C1, counterexample: an upstream message containing
RESOURCE_EXHAUSTED but neither 429 nor quota is answered with HTTP 500,
not 429, because src/app.py line 291 only tests 429 and quota; moreover a
quota-pattern message that specifies retry in 0 produces wait_seconds = 0,
so the claimed strictly positive wait does not hold either. -/
theorem quota_error_claim_cex :
    (generate [] 0 ("hi".toList) false
      (.raises ("RESOURCE_EXHAUSTED".toList)) trivialGifEnv).statusCode = 500 ∧
    (generate [] 0 ("hi".toList) false
      (.raises ("RESOURCE_EXHAUSTED".toList)) trivialGifEnv).statusCode ≠ 429 ∧
    (generate [] 0 ("hi".toList) false
      (.raises ("API quota exceeded, retry in 0 seconds".toList)) trivialGifEnv).statusCode = 429 ∧
    (generate [] 0 ("hi".toList) false
      (.raises ("API quota exceeded, retry in 0 seconds".toList)) trivialGifEnv).waitSeconds = some 0 := by
  decide

/-- Claim C1, amended: for every admitted /generate call with a nonempty
trimmed prompt whose upstream exception message contains 429, or contains
quota after lowercasing, the endpoint returns HTTP 429 with status
quota_exceeded and wait_seconds equal to the parsed retry delay when the
message contains a retry in (digits) directive, else 60. -/
theorem quota_error_maps_to_429 (times : List ℤ) (now : ℤ) (prompt : List Char)
    (im : Bool) (genv : GifEnv) (msg : List Char)
    (hallow : (pruneTimes now times).length < MAX_REQUESTS_PER_MINUTE)
    (hprompt : (pyStrip prompt).isEmpty = false)
    (hq : containsTok ("429".toList) msg = true ∨
      containsTok ("quota".toList) (pyLower msg) = true) :
    (generate times now prompt im (.raises msg) genv).statusCode = 429 ∧
    (generate times now prompt im (.raises msg) genv).status = "quota_exceeded".toList ∧
    (generate times now prompt im (.raises msg) genv).waitSeconds = some (retryWait msg) := by
  have hr := check_rate_limit_allow now times hallow
  have hclass : quotaPattern msg = true := by
    rcases hq with h | h
    · rw [quotaPattern, h, Bool.true_or]
    · rw [quotaPattern, h, Bool.or_true]
  simp [generate, hr, hprompt, classify_generate_error, hclass]

/-- Witness for quota_error_maps_to_429 at a concrete admitted call. -/
theorem quota_error_witness :
    ((pruneTimes 0 []).length < MAX_REQUESTS_PER_MINUTE) ∧
    ((pyStrip ("hi".toList)).isEmpty = false) ∧
    (containsTok ("quota".toList) (pyLower ("quota hit".toList)) = true) ∧
    ((generate [] 0 ("hi".toList) false (.raises ("quota hit".toList)) trivialGifEnv).statusCode = 429 ∧
     (generate [] 0 ("hi".toList) false (.raises ("quota hit".toList)) trivialGifEnv).status = "quota_exceeded".toList ∧
     (generate [] 0 ("hi".toList) false (.raises ("quota hit".toList)) trivialGifEnv).waitSeconds = some (retryWait ("quota hit".toList))) :=
  ⟨by decide, by decide, by decide,
   quota_error_maps_to_429 [] 0 ("hi".toList) false trivialGifEnv ("quota hit".toList)
     (by decide) (by decide) (Or.inr (by decide))⟩

/-- Claim C2, counterexample: with two admitted timestamps inside the
window, a whitespace-only prompt is answered 429, not 400, because the
rate-limit check at src/app.py line 214 runs before the empty-prompt check
at line 226; the claimed 400 regardless of limiter state is false. -/
theorem empty_prompt_claim_cex :
    (generate [(0:ℤ), 1000000] 2000000 (" ".toList) false (.raises []) trivialGifEnv).statusCode = 429 ∧
    (generate [(0:ℤ), 1000000] 2000000 (" ".toList) false (.raises []) trivialGifEnv).statusCode ≠ 400 := by
  decide

/-- Claim C2, amended: for every prompt that trims to empty, provided the
rate limiter admits the call, /generate returns HTTP 400 and no model is
invoked; when the limiter rejects, the 429 path likewise invokes no model
but the status is 429 rather than the claimed 400. -/
theorem empty_prompt_400_when_admitted (times : List ℤ) (now : ℤ)
    (prompt : List Char) (im : Bool) (up : Upstream) (genv : GifEnv)
    (hallow : (pruneTimes now times).length < MAX_REQUESTS_PER_MINUTE)
    (hempty : pyStrip prompt = []) :
    (generate times now prompt im up genv).statusCode = 400 ∧
    (generate times now prompt im up genv).modelInvoked = false := by
  have hr := check_rate_limit_allow now times hallow
  simp [generate, hr, hempty]

/-- Witness for empty_prompt_400_when_admitted on an empty log. -/
theorem empty_prompt_witness :
    ((pruneTimes 0 []).length < MAX_REQUESTS_PER_MINUTE) ∧
    (pyStrip (" ".toList) = []) ∧
    ((generate [] 0 (" ".toList) false (.ok ("x".toList)) trivialGifEnv).statusCode = 400 ∧
     (generate [] 0 (" ".toList) false (.ok ("x".toList)) trivialGifEnv).modelInvoked = false) :=
  ⟨by decide, by decide,
   empty_prompt_400_when_admitted [] 0 (" ".toList) false (.ok ("x".toList)) trivialGifEnv
     (by decide) (by decide)⟩

/-- Claim C3, counterexample: on the prompt make the implemented
extraction keeps make unchanged while the nine-token algorithm claimed by
the specification erases it; src/app.py line 276 removes only create,
generate, gif and video and never collapses whitespace. -/
theorem extract_spec_cex :
    extractKeywords ("make".toList) ≠ specExtract ("make".toList) := by
  decide

/-- Claim C3, amended: the keyword extraction used before GIF enrichment
equals the function that lowercases the prompt, removes the four literal
substrings create, generate, gif, video in that order, trims whitespace
from both ends, and truncates to 50 characters; there is no whitespace
collapsing and the tokens make, show, design, a, the are not removed. -/
theorem extract_matches_amended_spec (prompt : List Char) :
    extractKeywords prompt = specExtractAmended prompt := by
  simp only [extractKeywords, specExtractAmended, List.foldl]
  split
  next h => rfl
  next h => exact (List.take_of_length_le (by omega)).symm

/-- Claim C4, counterexample: the message Invalid API key matches the
auth pattern of the claim, yet /generate answers HTTP 500, because the
exception handler of src/app.py lines 289-310 has no auth branch at all. -/
theorem auth_error_claim_cex :
    (generate [] 0 ("hi".toList) false (.raises ("Invalid API key".toList)) trivialGifEnv).statusCode = 500 ∧
    (generate [] 0 ("hi".toList) false (.raises ("Invalid API key".toList)) trivialGifEnv).statusCode ≠ 401 := by
  decide

/-- Claim C4, amended: an upstream exception whose message contains API
and either key or auth, but does not match the quota pattern, is returned
by /generate as HTTP 500 with status error: the code performs no auth
classification and never answers 401. -/
theorem auth_pattern_returns_500 (times : List ℤ) (now : ℤ) (prompt : List Char)
    (im : Bool) (genv : GifEnv) (msg : List Char)
    (hallow : (pruneTimes now times).length < MAX_REQUESTS_PER_MINUTE)
    (hprompt : (pyStrip prompt).isEmpty = false)
    (_hapi : containsTok ("API".toList) msg = true)
    (_hkey : containsTok ("key".toList) msg = true ∨ containsTok ("auth".toList) msg = true)
    (hnq : quotaPattern msg = false) :
    (generate times now prompt im (.raises msg) genv).statusCode = 500 ∧
    (generate times now prompt im (.raises msg) genv).status = "error".toList := by
  have hr := check_rate_limit_allow now times hallow
  simp [generate, hr, hprompt, classify_generate_error, hnq]

/-- Witness for auth_pattern_returns_500 at a concrete auth-like message. -/
theorem auth_pattern_witness :
    ((pruneTimes 0 []).length < MAX_REQUESTS_PER_MINUTE) ∧
    ((pyStrip ("hi".toList)).isEmpty = false) ∧
    (containsTok ("API".toList) ("Invalid API key".toList) = true) ∧
    (containsTok ("key".toList) ("Invalid API key".toList) = true) ∧
    (quotaPattern ("Invalid API key".toList) = false) ∧
    ((generate [] 0 ("hi".toList) false (.raises ("Invalid API key".toList)) trivialGifEnv).statusCode = 500 ∧
     (generate [] 0 ("hi".toList) false (.raises ("Invalid API key".toList)) trivialGifEnv).status = "error".toList) :=
  ⟨by decide, by decide, by decide, by decide, by decide,
   auth_pattern_returns_500 [] 0 ("hi".toList) false trivialGifEnv ("Invalid API key".toList)
     (by decide) (by decide) (by decide) (Or.inl (by decide)) (by decide)⟩

/-- Claim C5: whenever the timestamp log holds at most
MAX_REQUESTS_PER_MINUTE entries, the property true of the initial empty
log and, as proved here, re-established by every sequential /generate
request, the log left behind again holds at most MAX_REQUESTS_PER_MINUTE
entries and all of them lie inside the trailing 60-second window of the
check, by the prune-then-check-then-append ordering of check_rate_limit. -/
theorem limiter_log_invariant (times : List ℤ) (now : ℤ) (prompt : List Char)
    (im : Bool) (up : Upstream) (genv : GifEnv)
    (h : times.length ≤ MAX_REQUESTS_PER_MINUTE) :
    (generate times now prompt im up genv).newTimes.length ≤ MAX_REQUESTS_PER_MINUTE ∧
    ∀ t ∈ (generate times now prompt im up genv).newTimes, now - t < oneMinuteUs := by
  rw [generate_newTimes]
  have hplen : (pruneTimes now times).length ≤ times.length := by
    simp only [pruneTimes]
    exact List.length_filter_le _ times
  have hpmem : ∀ t ∈ pruneTimes now times, now - t < oneMinuteUs := by
    intro t ht
    simp only [pruneTimes, List.mem_filter] at ht
    exact of_decide_eq_true ht.2
  by_cases hc : MAX_REQUESTS_PER_MINUTE ≤ (pruneTimes now times).length
  · rw [check_rate_limit_reject now times hc]
    exact ⟨le_trans hplen h, hpmem⟩
  · rw [check_rate_limit_allow now times (lt_of_not_le hc)]
    constructor
    · rw [List.length_append]
      have hlt := lt_of_not_le hc
      simp only [List.length_cons, List.length_nil]
      omega
    · intro t ht
      rcases List.mem_append.mp ht with h1 | h1
      · exact hpmem t h1
      · rw [List.mem_singleton] at h1
        subst h1
        rw [sub_self]
        decide

/-- Witness for limiter_log_invariant on a one-entry log. -/
theorem limiter_log_invariant_witness :
    ([(0:ℤ)].length ≤ MAX_REQUESTS_PER_MINUTE) ∧
    ((generate [(0:ℤ)] 5 ("hi".toList) false (.raises []) trivialGifEnv).newTimes.length ≤ MAX_REQUESTS_PER_MINUTE ∧
     ∀ t ∈ (generate [(0:ℤ)] 5 ("hi".toList) false (.raises []) trivialGifEnv).newTimes, 5 - t < oneMinuteUs) :=
  ⟨by decide,
   limiter_log_invariant [(0:ℤ)] 5 ("hi".toList) false (.raises []) trivialGifEnv (by decide)⟩

/-- Claim C6, counterexample: with admitted timestamps 0 s and 1 s and a
third request at 59.5 s, both previous entries are still inside the
window, the request is rejected with HTTP 429, yet wait_seconds is 0
because int() truncates 60 - 59.5 = 0.5 to 0; the claimed strictly
positive wait_seconds is false. -/
theorem third_request_wait_cex :
    (generate [(0:ℤ), 1000000] 59500000 ("hi".toList) false (.raises []) trivialGifEnv).statusCode = 429 ∧
    (generate [(0:ℤ), 1000000] 59500000 ("hi".toList) false (.raises []) trivialGifEnv).waitSeconds = some 0 := by
  decide

/-- Claim C6, amended: a third /generate request arriving while two
admitted timestamps lie inside the trailing 60-second window is answered
HTTP 429 with 0 ≤ wait_seconds ≤ 60; wait_seconds is the int() truncation
of 60 - (now - oldest) seconds, hence 0 when under one second of the
window remains. -/
theorem third_request_429_wait_bounds (t1 t2 now : ℤ) (prompt : List Char)
    (im : Bool) (up : Upstream) (genv : GifEnv)
    (h1 : 0 ≤ now - t1) (h2 : now - t1 < oneMinuteUs)
    (h3 : 0 ≤ now - t2) (h4 : now - t2 < oneMinuteUs) :
    (generate [t1, t2] now prompt im up genv).statusCode = 429 ∧
    ∃ w, (generate [t1, t2] now prompt im up genv).waitSeconds = some w ∧
      0 ≤ w ∧ w ≤ 60 := by
  have hp : pruneTimes now [t1, t2] = [t1, t2] := by
    simp [pruneTimes, List.filter, h2, h4]
  have hfull : MAX_REQUESTS_PER_MINUTE ≤ (pruneTimes now [t1, t2]).length := by
    rw [hp]
    exact Nat.le_refl _
  have hr := check_rate_limit_reject now [t1, t2] hfull
  rw [hp] at hr
  have hmin : listMin [t1, t2] = min t1 t2 := rfl
  have hm : 0 ≤ now - min t1 t2 ∧ now - min t1 t2 < oneMinuteUs := by
    rcases min_choice t1 t2 with hc | hc
    · rw [hc]; exact ⟨h1, h2⟩
    · rw [hc]; exact ⟨h3, h4⟩
  have hnum0 : 0 ≤ oneMinuteUs - (now - min t1 t2) := by
    have := hm.2
    omega
  have hnum1 : oneMinuteUs - (now - min t1 t2) ≤ oneMinuteUs := by
    have := hm.1
    omega
  have hw0 : 0 ≤ waitSecondsOfUs (oneMinuteUs - (now - min t1 t2)) :=
    Int.tdiv_nonneg hnum0 (by decide)
  have hw60 : waitSecondsOfUs (oneMinuteUs - (now - min t1 t2)) ≤ 60 := by
    rw [waitSecondsOfUs, Int.tdiv_eq_ediv hnum0 (by decide)]
    calc (oneMinuteUs - (now - min t1 t2)) / 1000000
        ≤ oneMinuteUs / 1000000 := Int.ediv_le_ediv (by decide) hnum1
      _ = 60 := by decide
  refine ⟨?_, waitSecondsOfUs (oneMinuteUs - (now - min t1 t2)), ?_, hw0, hw60⟩
  · simp [generate, hr]
  · simp [generate, hr, hmin]

/-- Witness for third_request_429_wait_bounds at 0 s, 1 s and now 2 s. -/
theorem third_request_witness :
    ((0:ℤ) ≤ 2000000 - 0) ∧ ((2000000:ℤ) - 0 < oneMinuteUs) ∧
    ((0:ℤ) ≤ 2000000 - 1000000) ∧ ((2000000:ℤ) - 1000000 < oneMinuteUs) ∧
    ((generate [(0:ℤ), 1000000] 2000000 ("go".toList) false (.raises []) trivialGifEnv).statusCode = 429 ∧
     ∃ w, (generate [(0:ℤ), 1000000] 2000000 ("go".toList) false (.raises []) trivialGifEnv).waitSeconds = some w ∧
       0 ≤ w ∧ w ≤ 60) :=
  ⟨by decide, by decide, by decide, by decide,
   third_request_429_wait_bounds 0 1000000 2000000 ("go".toList) false (.raises []) trivialGifEnv
     (by decide) (by decide) (by decide) (by decide)⟩

set_option maxRecDepth 8192 in
/-- Claim C7, counterexample: a 160-character upstream message that
matches no pattern is embedded whole into the error field, whose length
188 exceeds the claimed 150-character truncation; src/app.py line 308
interpolates str(e) without truncating. -/
theorem generic_error_trunc_cex :
    150 < ((generate [] 0 ("hi".toList) false
      (.raises (List.replicate 160 'x')) trivialGifEnv).error.getD []).length := by
  decide

/-- Claim C7, amended: for every admitted /generate call with nonempty
trimmed prompt whose upstream exception message matches neither 429 nor
quota, the endpoint returns HTTP 500 and an error field holding the full
untruncated message prefixed by Failed to generate content. -/
theorem generic_error_full_message_500 (times : List ℤ) (now : ℤ)
    (prompt : List Char) (im : Bool) (genv : GifEnv) (msg : List Char)
    (hallow : (pruneTimes now times).length < MAX_REQUESTS_PER_MINUTE)
    (hprompt : (pyStrip prompt).isEmpty = false)
    (hnq : quotaPattern msg = false) :
    (generate times now prompt im (.raises msg) genv).statusCode = 500 ∧
    (generate times now prompt im (.raises msg) genv).error =
      some ("Failed to generate content: ".toList ++ msg) := by
  have hr := check_rate_limit_allow now times hallow
  simp [generate, hr, hprompt, classify_generate_error, hnq]

/-- Witness for generic_error_full_message_500 at a short message. -/
theorem generic_error_witness :
    ((pruneTimes 0 []).length < MAX_REQUESTS_PER_MINUTE) ∧
    ((pyStrip ("hi".toList)).isEmpty = false) ∧
    (quotaPattern ("boom".toList) = false) ∧
    ((generate [] 0 ("hi".toList) false (.raises ("boom".toList)) trivialGifEnv).statusCode = 500 ∧
     (generate [] 0 ("hi".toList) false (.raises ("boom".toList)) trivialGifEnv).error =
       some ("Failed to generate content: ".toList ++ "boom".toList)) :=
  ⟨by decide, by decide, by decide,
   generic_error_full_message_500 [] 0 ("hi".toList) false trivialGifEnv ("boom".toList)
     (by decide) (by decide) (by decide)⟩

/-- Claim C8, counterexample: on gvideoif one extraction pass removes
video and thereby splices the stoplist token gif into existence, so the
single-pass output contains a stoplist token and a second pass erases it;
extraction is not idempotent. -/
theorem extract_idempotent_cex :
    containsTok ("gif".toList) (extractKeywords ("gvideoif".toList)) = true ∧
    extractKeywords (extractKeywords ("gvideoif".toList)) ≠ extractKeywords ("gvideoif".toList) := by
  decide

/-- Claim C8, amended: extraction is idempotent exactly on the outputs
that contain none of the four removed tokens and are already stripped:
whenever one pass leaves no occurrence of create, generate, gif or video
and its result is unchanged by strip, a second pass returns it unchanged.
In general a removal can splice a new token into existence and a
truncation at 50 characters can expose trailing whitespace, so
unconditional idempotence fails. -/
theorem extract_idempotent_conditional (x : List Char)
    (h1 : containsTok ("create".toList) (extractKeywords x) = false)
    (h2 : containsTok ("generate".toList) (extractKeywords x) = false)
    (h3 : containsTok ("gif".toList) (extractKeywords x) = false)
    (h4 : containsTok ("video".toList) (extractKeywords x) = false)
    (h5 : pyStrip (extractKeywords x) = extractKeywords x) :
    extractKeywords (extractKeywords x) = extractKeywords x := by
  have hlow := pyLower_extractKeywords x
  have hlen := extractKeywords_length_le x
  set y := extractKeywords x with hy
  simp only [extractKeywords]
  rw [hlow, removeAll_of_not_contains _ _ h1, removeAll_of_not_contains _ _ h2,
    removeAll_of_not_contains _ _ h3, removeAll_of_not_contains _ _ h4, h5]
  rw [if_neg (by omega)]

/-- Witness for extract_idempotent_conditional on a token-free prompt. -/
theorem extract_idempotent_witness :
    (containsTok ("create".toList) (extractKeywords ("dancing cat".toList)) = false) ∧
    (containsTok ("generate".toList) (extractKeywords ("dancing cat".toList)) = false) ∧
    (containsTok ("gif".toList) (extractKeywords ("dancing cat".toList)) = false) ∧
    (containsTok ("video".toList) (extractKeywords ("dancing cat".toList)) = false) ∧
    (pyStrip (extractKeywords ("dancing cat".toList)) = extractKeywords ("dancing cat".toList)) ∧
    extractKeywords (extractKeywords ("dancing cat".toList)) = extractKeywords ("dancing cat".toList) :=
  ⟨by decide, by decide, by decide, by decide, by decide,
   extract_idempotent_conditional ("dancing cat".toList)
     (by decide) (by decide) (by decide) (by decide) (by decide)⟩

/-- Claim C9: every successful /search-gif outcome, whether served by
Giphy or by Tenor, carries at most 6 items, because both branches of
search_gif keep only the first 6 results before mapping them. -/
theorem search_gif_count_le_six (giphyKey : List Char)
    (giphyResp : ProviderResp GiphyItem) (tenorResp : ProviderResp TenorItem)
    (query q : List Char) (gifs : List GifItem)
    (h : search_gif giphyKey giphyResp tenorResp query = .success q gifs) :
    gifs.length ≤ 6 := by
  rw [search_gif] at h
  split at h
  · injection h with hq hg
    rw [← hg, List.length_map, List.length_take]
    exact min_le_left _ _
  · split at h
    · injection h with hq hg
      rw [← hg, List.length_map, List.length_take]
      exact min_le_left _ _
    · exact absurd h (by simp)

/-- Witness for search_gif_count_le_six on a Tenor success. -/
theorem search_gif_count_witness :
    (search_gif [] { statusCode := 500, data := [] } { statusCode := 200, data := [] }
      ("cat".toList) = SearchOutcome.success ("cat".toList) []) ∧
    ([] : List GifItem).length ≤ 6 :=
  ⟨by decide,
   search_gif_count_le_six [] { statusCode := 500, data := [] }
     { statusCode := 200, data := [] } ("cat".toList) ("cat".toList) [] (by decide)⟩

/-- Claim C10: when the limiter admits a /generate call whose prompt trims
to empty, the current instant has already been appended to the timestamp
log by check_rate_limit before the 400 response is produced, so the
rejected request still consumes one unit of the per-minute quota. -/
theorem empty_prompt_consumes_quota (times : List ℤ) (now : ℤ)
    (prompt : List Char) (im : Bool) (up : Upstream) (genv : GifEnv)
    (hallow : (pruneTimes now times).length < MAX_REQUESTS_PER_MINUTE)
    (hempty : pyStrip prompt = []) :
    (generate times now prompt im up genv).statusCode = 400 ∧
    (generate times now prompt im up genv).newTimes = pruneTimes now times ++ [now] := by
  have hr := check_rate_limit_allow now times hallow
  simp [generate, hr, hempty]

/-- Witness for empty_prompt_consumes_quota on a one-entry log. -/
theorem empty_prompt_consumes_quota_witness :
    ((pruneTimes 10 [(5:ℤ)]).length < MAX_REQUESTS_PER_MINUTE) ∧
    (pyStrip ("  ".toList) = []) ∧
    ((generate [(5:ℤ)] 10 ("  ".toList) false (.ok ("x".toList)) trivialGifEnv).statusCode = 400 ∧
     (generate [(5:ℤ)] 10 ("  ".toList) false (.ok ("x".toList)) trivialGifEnv).newTimes =
       pruneTimes 10 [(5:ℤ)] ++ [10]) :=
  ⟨by decide, by decide,
   empty_prompt_consumes_quota [(5:ℤ)] 10 ("  ".toList) false (.ok ("x".toList)) trivialGifEnv
     (by decide) (by decide)⟩
